import Mathlib

/-!
Verification of the `loki_api_client` Python library
(`src/loki_api_client/loki_connect.py`) against its natural-language
specification.

The embedding is shallow: Python values that can reach the validation code
become the inductive `PyVal` (with Python truthiness), Python dicts become
insertion-ordered association lists (`Params`), exceptions become
`Except PyError`, and the one HTTP exchange a call performs is modelled by
passing in the `HttpResponse` the transport would deliver.  Each method of
`LokiConnect` is embedded as a pure function that also returns the
post-state of the client and (for `query`) the final state of the
caller-supplied params dict, so that mutation claims can be stated.
-/

set_option maxHeartbeats 1000000

/-- A Python value, as far as the client's validation code can observe it:
`None`, strings, ints and bools.  `loki_connect.py` inspects an argument
only through its truthiness and `isinstance(·, str)`, so any other Python
object (a list, a dict, …) behaves here exactly like an int of the same
truthiness. -/
inductive PyVal where
  | none
  | str (s : String)
  | int (n : Int)
  | bool (b : Bool)
  deriving DecidableEq, Repr

/-- Python truthiness (`bool(v)`) for the embedded values: `None` and `False`
are falsy, a string is truthy iff non-empty, an int iff non-zero. -/
def PyVal.truthy : PyVal → Bool
  | .none => false
  | .str s => s.length != 0
  | .int n => n != 0
  | .bool b => b

/-- `isinstance(v, str)` for the embedded values. -/
def PyVal.isStr : PyVal → Bool
  | .str _ => true
  | _ => false

/-- A Python dict with string keys, embedded as an insertion-ordered
association list (keys unique by construction of `setParam`). -/
abbrev Params := List (String × PyVal)

/-- `d[key]` lookup (first binding wins, as dict keys are unique). -/
def getParam : Params → String → Option PyVal
  | [], _ => Option.none
  | (k, v) :: rest, key => if k = key then some v else getParam rest key

/-- `d[key] = v`: replace the existing binding in place (Python dicts keep
the original insertion position on update) or append a new one. -/
def setParam : Params → String → PyVal → Params
  | [], key, v => [(key, v)]
  | (k, w) :: rest, key, v =>
    if k = key then (key, v) :: rest else (k, w) :: setParam rest key v

/-- The errors `loki_connect.py` can raise (the spec's `ConfigurationError`
and `InvalidArgument` are `TypeError`/`ValueError`, `HTTPStatusError` is
`requests.HTTPError`, `DecodeError` is the JSON decode failure). -/
inductive PyError where
  | typeError (msg : String)
  | valueError (msg : String)
  | httpError (status : Nat)
  | jsonDecodeError
  deriving DecidableEq, Repr

/-- The HTTP response the session delivers for the single GET a call makes:
its status code and, when the body is valid JSON, the decoded value. -/
structure HttpResponse where
  status : Nat
  json? : Option PyVal
  deriving DecidableEq, Repr

/-- `requests.Response.ok`: true iff `raise_for_status()` would not raise,
i.e. iff the status is not a 4xx/5xx client or server error. -/
def HttpResponse.ok (r : HttpResponse) : Bool :=
  decide (¬ (400 ≤ r.status ∧ r.status < 600))

/-- The retry policy handed to the HTTP adapter
(`urllib3.util.retry.Retry(total, backoff_factor, status_forcelist)`). -/
structure Retry where
  total : Nat
  backoff_factor : Nat
  status_forcelist : List Nat
  deriving DecidableEq, Repr

/-- `MAX_REQUEST_RETRIES = 3` (module constant). -/
def MAX_REQUEST_RETRIES : Nat := 3

/-- `RETRY_BACKOFF_FACTOR = 1` (module constant). -/
def RETRY_BACKOFF_FACTOR : Nat := 1

/-- `RETRY_ON_STATUS = [408, 429, 500, 502, 503, 504]` (module constant). -/
def RETRY_ON_STATUS : List Nat := [408, 429, 500, 502, 503, 504]

/-- Characters allowed in a URL scheme after the leading letter
(`urllib.parse.scheme_chars`): letters, digits, `+`, `-`, `.`. -/
def schemeChar (c : Char) : Bool :=
  c.isAlpha || c.isDigit || c = '+' || c = '-' || c = '.'

/-- `urllib.parse.urlsplit` scheme handling: if the first `:` sits at
position `i > 0`, the first character is a letter and everything before the
`:` is made of scheme characters, the scheme (and the `:`) is stripped. -/
def dropScheme (cs : List Char) : List Char :=
  match cs.findIdx? (fun c => c = ':') with
  | some i =>
    if 0 < i && (cs.take 1).all (fun c => c.isAlpha)
        && ((cs.take i).drop 1).all schemeChar
    then cs.drop (i + 1) else cs
  | Option.none => cs

/-- `urllib.parse._splitnetloc`: the netloc runs from after `//` up to the
first `/`, `?` or `#`. -/
def splitNetloc (cs : List Char) : List Char :=
  cs.takeWhile (fun c => c ≠ '/' && c ≠ '?' && c ≠ '#')

/-- The netloc `urllib.parse.urlparse(url).netloc` would compute: strip the
unsafe bytes (tab, CR, LF), strip a scheme, and if the rest starts with `//`
take everything up to the first `/`, `?` or `#`; otherwise the netloc is
empty. -/
def netlocChars (url : String) : List Char :=
  let cs := url.data.filter (fun c => c ≠ '\t' && c ≠ '\r' && c ≠ '\n')
  match dropScheme cs with
  | '/' :: '/' :: rest => splitNetloc rest
  | _ => []

/-- `urlsplit`'s rejection test: a `[` without `]` (or `]` without `[`) in
the netloc raises `ValueError("Invalid IPv6 URL")`. -/
def invalidIPv6Netloc (url : String) : Bool :=
  let n := netlocChars url
  (n.contains '[' && !n.contains ']') || (n.contains ']' && !n.contains '[')

/-- `urllib.parse.urlparse(url).netloc` restricted to the decidable part of
the parser: the netloc string, or the `Invalid IPv6 URL` `ValueError`.
This is the ASCII-netloc restriction of `urlparseNetlocFull` below (they
agree whenever the netloc is ASCII, by `initFull_eq_init_of_ascii`): it
omits `_checknetloc`'s NFKC rejection of some non-ASCII netlocs, which
depends on the external Unicode normalization table and is modelled in
`checknetloc`/`urlparseNetlocFull` with that table as a parameter. -/
def urlparseNetloc (url : String) : Except PyError String :=
  if invalidIPv6Netloc url then Except.error (PyError.valueError "Invalid IPv6 URL")
  else Except.ok (String.mk (netlocChars url))

/-- `str.isascii()` per character: the code point is below 128. -/
def isAsciiChar (c : Char) : Bool :=
  decide (c.toNat < 128)

/-- `_checknetloc`'s fast-path condition `not netloc or netloc.isascii()`
(an empty char list makes `List.all` true, matching `not netloc`). -/
def netlocIsAscii (url : String) : Bool :=
  (netlocChars url).all isAsciiChar

/-- `urllib.parse._checknetloc(netloc)`, with the external
`unicodedata.normalize("NFKC", ·)` table passed in as `nfkc`: return at
once for an empty or all-ASCII netloc; otherwise drop `@:#?`, NFKC-
normalize, and raise `ValueError` iff normalization changed the text and
the result contains one of `/?#@:`. -/
def checknetloc (nfkc : List Char → List Char) (netloc : List Char) :
    Option PyError :=
  if netloc.isEmpty || netloc.all isAsciiChar then Option.none
  else
    let n := netloc.filter (fun c => c ≠ '@' && c ≠ ':' && c ≠ '#' && c ≠ '?')
    let netloc2 := nfkc n
    if n = netloc2 then Option.none
    else if netloc2.any (fun c => c = '/' || c = '?' || c = '#' || c = '@' || c = ':')
    then some (PyError.valueError
      "netloc contains invalid characters under NFKC normalization")
    else Option.none

/-- `urllib.parse.urlparse(url).netloc` with both error paths of
`urlsplit` that apply to every Python 3: first the mismatched-bracket
`Invalid IPv6 URL` check, then `_checknetloc` (given the NFKC table
`nfkc`).  The bracketed-host validation that patched interpreters
additionally run for a netloc with matched brackets
(`_check_bracketed_host`, absent from older interpreters) is
version-dependent and deliberately not modelled; no theorem below asserts
success for a netloc containing a bracket. -/
def urlparseNetlocFull (nfkc : List Char → List Char) (url : String) :
    Except PyError String :=
  if invalidIPv6Netloc url then Except.error (PyError.valueError "Invalid IPv6 URL")
  else
    match checknetloc nfkc (netlocChars url) with
    | some e => Except.error e
    | Option.none => Except.ok (String.mk (netlocChars url))

/-- The client's configuration, fixed at construction
(`LokiConnect.__init__` fields; the session is represented by the retry
policy mounted on it). -/
structure LokiConnect where
  headers : Option Params
  url : String
  loki_host : String
  ssl_verification : Bool
  ignore_http_errors : Bool
  retry : Retry
  deriving DecidableEq, Repr

/-- `LokiConnect.__init__(url, headers, disable_ssl, retry,
ignore_http_errors)`: `TypeError("missing url")` when `url is None`,
otherwise parse the netloc, set the fields, and default the retry policy to
`Retry(total=MAX_REQUEST_RETRIES, backoff_factor=RETRY_BACKOFF_FACTOR,
status_forcelist=RETRY_ON_STATUS)` when none is given. -/
def LokiConnect.init (url : Option String) (headers : Option Params)
    (disable_ssl : Bool) (retry : Option Retry) (ignore_http_errors : Bool) :
    Except PyError LokiConnect :=
  match url with
  | Option.none => Except.error (PyError.typeError "missing url")
  | some u =>
    match urlparseNetloc u with
    | Except.error e => Except.error e
    | Except.ok host =>
      Except.ok
        { headers := headers
          url := u
          loki_host := host
          ssl_verification := !disable_ssl
          ignore_http_errors := ignore_http_errors
          retry := match retry with
            | some r => r
            | Option.none =>
              { total := MAX_REQUEST_RETRIES
                backoff_factor := RETRY_BACKOFF_FACTOR
                status_forcelist := RETRY_ON_STATUS } }

/-- `LokiConnect.__init__` with the full netloc parser
(`urlparseNetlocFull`, NFKC table passed as `nfkc`); otherwise identical to
`LokiConnect.init`, and equal to it whenever the netloc is ASCII
(`initFull_eq_init_of_ascii`). -/
def LokiConnect.initFull (nfkc : List Char → List Char) (url : Option String)
    (headers : Option Params) (disable_ssl : Bool) (retry : Option Retry)
    (ignore_http_errors : Bool) : Except PyError LokiConnect :=
  match url with
  | Option.none => Except.error (PyError.typeError "missing url")
  | some u =>
    match urlparseNetlocFull nfkc u with
    | Except.error e => Except.error e
    | Except.ok host =>
      Except.ok
        { headers := headers
          url := u
          loki_host := host
          ssl_verification := !disable_ssl
          ignore_http_errors := ignore_http_errors
          retry := match retry with
            | some r => r
            | Option.none =>
              { total := MAX_REQUEST_RETRIES
                backoff_factor := RETRY_BACKOFF_FACTOR
                status_forcelist := RETRY_ON_STATUS } }

/-- `params = params or {}`: an absent (`None`) or empty dict is replaced by
a fresh empty dict; a non-empty dict is used (and, in Python, aliased). -/
def paramsOrEmpty (params0 : Option Params) : Params :=
  match params0 with
  | Option.none => []
  | some d => if d.isEmpty then [] else d

/-- The parameter-building and validation section of `LokiConnect.query`,
threading the state of the `params` dict exactly as the source mutates it:
`if query:` (inside: the `isinstance` check, then `params["query"] = query`)
else `ValueError("query empty")`; then `if time:`, `if limit:`; then the
direction membership check, raising `ValueError` before
`params["direction"]` is assigned.  Returns the dict state at return or at
the raise, plus the raised error if any. -/
def queryBuild (q l t dir : PyVal) (d : Params) : Params × Option PyError :=
  if q.truthy then
    if q.isStr then
      let d1 := setParam d "query" q
      let d2 := if t.truthy then setParam d1 "time" t else d1
      let d3 := if l.truthy then setParam d2 "limit" l else d2
      if dir = PyVal.str "backward" ∨ dir = PyVal.str "forward" then
        (setParam d3 "direction" dir, Option.none)
      else (d3, some (PyError.valueError "Invalid direction Value"))
    else (d, some (PyError.typeError "Incorrect query type"))
  else (d, some (PyError.valueError "query empty"))

/-- The parameter set `query()` sends with its GET request, or the
validation error that prevents any request. -/
def queryParams (q l t dir : PyVal) (params0 : Option Params) :
    Except PyError Params :=
  match queryBuild q l t dir (paramsOrEmpty params0) with
  | (d, Option.none) => Except.ok d
  | (_, some e) => Except.error e

/-- The state of a caller-supplied `params` dict after `query()` returns or
raises: an empty dict was replaced by a fresh `{}` (so it is untouched); a
non-empty dict is the very object the method mutates. -/
def queryCallerAfter (q l t dir : PyVal) (d : Params) : Params :=
  if d.isEmpty then d else (queryBuild q l t dir d).1

/-- The state of a caller-supplied `params` dict after `ready()` returns:
`ready` only reads `params` (it is passed to `session.get`, which does not
mutate it), so the dict is unchanged. -/
def readyCallerAfter (d : Params) : Params := d

/-- `LokiConnect.ready(params)`: one GET to `{url}/ready` with
`params or {}`; returns `response.ok`.  Result: (post-state of the client,
parameters sent, returned bool). -/
def LokiConnect.readyRun (c : LokiConnect) (params0 : Option Params)
    (resp : HttpResponse) : LokiConnect × Params × Bool :=
  (c, paramsOrEmpty params0, resp.ok)

/-- `LokiConnect.query(query, limit, time, direction, params)`: validate and
build the parameter set (no request on validation failure), issue the GET,
then `raise_for_status()` unless `ignore_http_errors`, then
`response.json()`.  Result: (post-state of the client, parameters sent with
the GET if one was issued, returned JSON or raised error). -/
def LokiConnect.queryRun (c : LokiConnect) (q l t dir : PyVal)
    (params0 : Option Params) (resp : HttpResponse) :
    LokiConnect × Option Params × Except PyError PyVal :=
  (c,
   match queryParams q l t dir params0 with
   | Except.error e => (Option.none, Except.error e)
   | Except.ok ps =>
     (some ps,
      if c.ignore_http_errors = false ∧ 400 ≤ resp.status ∧ resp.status < 600 then
        Except.error (PyError.httpError resp.status)
      else
        match resp.json? with
        | some v => Except.ok v
        | Option.none => Except.error PyError.jsonDecodeError))

/-- One observable call on a client, with the response the transport would
deliver for it. -/
inductive Call where
  | ready (params0 : Option Params) (resp : HttpResponse)
  | query (q l t dir : PyVal) (params0 : Option Params) (resp : HttpResponse)

/-- The client state after performing one call. -/
def LokiConnect.runCall (c : LokiConnect) : Call → LokiConnect
  | Call.ready p resp => (c.readyRun p resp).1
  | Call.query q l t dir p resp => (c.queryRun q l t dir p resp).1

/-- The client state after a sequence of calls. -/
def LokiConnect.runCalls (c : LokiConnect) (calls : List Call) : LokiConnect :=
  calls.foldl (fun st k => st.runCall k) c

/-- A concrete client used to instantiate theorems with hypotheses. -/
def sampleClient : LokiConnect :=
  { headers := Option.none
    url := "http://127.0.0.1:3100"
    loki_host := "127.0.0.1:3100"
    ssl_verification := true
    ignore_http_errors := false
    retry :=
      { total := MAX_REQUEST_RETRIES
        backoff_factor := RETRY_BACKOFF_FACTOR
        status_forcelist := RETRY_ON_STATUS } }

/-! ## Helper lemmas -/

/-- `params or {}` with a supplied dict gives a dict with the same contents
(the fresh `{}` only matters for aliasing, which `queryCallerAfter` models). -/
theorem paramsOrEmpty_some (p : Params) : paramsOrEmpty (some p) = p := by
  cases p <;> simp [paramsOrEmpty]

/-- Looking up the key just set returns the value just set. -/
theorem getParam_setParam_self (d : Params) (k : String) (v : PyVal) :
    getParam (setParam d k v) k = some v := by
  induction d with
  | nil => simp [setParam, getParam]
  | cons hd tl ih =>
    obtain ⟨k1, v1⟩ := hd
    by_cases h : k1 = k
    · subst h; simp [setParam, getParam]
    · simp [setParam, getParam, h, ih]

/-- Setting one key leaves lookups of any other key unchanged. -/
theorem getParam_setParam_ne (d : Params) (k key : String) (v : PyVal)
    (h : ¬ key = k) : getParam (setParam d k v) key = getParam d key := by
  have h2 : ¬ k = key := fun hh => h hh.symm
  induction d with
  | nil => simp [setParam, getParam, h2]
  | cons hd tl ih =>
    obtain ⟨k1, v1⟩ := hd
    by_cases h1 : k1 = k
    · subst h1; simp [setParam, getParam, h2]
    · simp [setParam, getParam, h1, ih]

/-- Neither `ready` nor `query` writes any field of the client. -/
theorem runCall_id (c : LokiConnect) (k : Call) : c.runCall k = c := by
  cases k <;> rfl

/-- `_checknetloc` returns at its first line for an ASCII netloc, whatever
the NFKC table says. -/
theorem checknetloc_ascii (nfkc : List Char → List Char) (n : List Char)
    (h : n.all isAsciiChar = true) : checknetloc nfkc n = Option.none := by
  unfold checknetloc
  rw [h]
  simp

/-- On an ASCII netloc the full constructor and the restricted one agree
(the NFKC check is a no-op there), so theorems stated on `LokiConnect.init`
read as theorems about the real constructor for such URLs. -/
theorem initFull_eq_init_of_ascii (nfkc : List Char → List Char) (u : String)
    (hdrs : Option Params) (d : Bool) (r : Option Retry) (i : Bool)
    (h : netlocIsAscii u = true) :
    LokiConnect.initFull nfkc (some u) hdrs d r i
      = LokiConnect.init (some u) hdrs d r i := by
  simp only [netlocIsAscii] at h
  simp only [LokiConnect.initFull, LokiConnect.init, urlparseNetlocFull,
    urlparseNetloc, checknetloc_ascii nfkc (netlocChars u) h]

/-! ## Claims -/

/-- Claim C1, amended (the original is refuted by
`query_limit_from_extras_when_falsy`): in the parameter set a validated
`query()` call sends, `"query"` maps to the query argument and
`"direction"` to the direction argument; `"limit"` maps to the limit
argument when limit is truthy and `"time"` to the time argument when time
is truthy; every other key — including `"limit"`/`"time"` themselves when
the corresponding argument is falsy — keeps the value of the
caller-supplied extras map (so named arguments override same-keyed extras,
but a falsy `limit` does not remove an extras entry named `"limit"`). -/
theorem query_request_params_lookup (q l t dir : PyVal) (p ps : Params) (key : String)
    (h : queryParams q l t dir (some p) = Except.ok ps) :
    getParam ps key =
      if key = "query" then some q
      else if key = "direction" then some dir
      else if key = "limit" ∧ l.truthy = true then some l
      else if key = "time" ∧ t.truthy = true then some t
      else getParam p key := by
  by_cases hq : q.truthy = true
  case neg =>
    rw [Bool.not_eq_true] at hq
    simp [queryParams, queryBuild, hq] at h
  by_cases hs : q.isStr = true
  case neg =>
    rw [Bool.not_eq_true] at hs
    simp [queryParams, queryBuild, hq, hs] at h
  by_cases hdir : dir = PyVal.str "backward" ∨ dir = PyVal.str "forward"
  case neg =>
    simp [queryParams, queryBuild, hq, hs, hdir] at h
  simp [queryParams, queryBuild, hq, hs, hdir, paramsOrEmpty_some] at h
  subst h
  by_cases hl : l.truthy = true <;> by_cases ht : t.truthy = true <;>
  by_cases hk1 : key = "query" <;> by_cases hk2 : key = "direction" <;>
  by_cases hk3 : key = "limit" <;> by_cases hk4 : key = "time" <;>
    simp_all [getParam_setParam_self, getParam_setParam_ne]

/-- Counterexample to claim C1 as stated: with `limit=0` (falsy) but extras
`{"limit": "7"}`, the sent parameter set does contain `"limit"` (with the
extras' value), refuting "contains `limit` if and only if limit is truthy". -/
theorem query_limit_from_extras_when_falsy :
    (PyVal.int 0).truthy = false ∧
    queryParams (PyVal.str "q") (PyVal.int 0) PyVal.none (PyVal.str "backward")
        (some [("limit", PyVal.str "7")])
      = Except.ok [("limit", PyVal.str "7"), ("query", PyVal.str "q"),
          ("direction", PyVal.str "backward")] ∧
    getParam [("limit", PyVal.str "7"), ("query", PyVal.str "q"),
        ("direction", PyVal.str "backward")] "limit" = some (PyVal.str "7") :=
  ⟨rfl, rfl, rfl⟩

/-- Witness instantiating `query_request_params_lookup` at a concrete call. -/
theorem query_request_params_lookup_witness :
    getParam [("query", PyVal.str "hello"), ("limit", PyVal.int 10),
        ("direction", PyVal.str "backward")] "query" = some (PyVal.str "hello") := by
  have h := query_request_params_lookup (PyVal.str "hello") (PyVal.int 10) PyVal.none
    (PyVal.str "backward") []
    [("query", PyVal.str "hello"), ("limit", PyVal.int 10),
      ("direction", PyVal.str "backward")] "query" rfl
  simpa using h

/-- Claim C2, amended (the original is refuted by
`query_304_returns_body_without_error`): for every `query()` call that
issues a request, when `ignore_http_errors` is false a response whose
status is a 4xx/5xx client or server error (400 ≤ status < 600) fails with
`HTTPStatusError` carrying the status; any other status — including
non-2xx statuses below 400 such as 304 — does not raise.  When the flag is
true no status raises.  In the non-raising cases the body parsed as JSON is
returned, failing with `DecodeError` if the body is not valid JSON. -/
theorem query_http_error_range (c : LokiConnect) (q l t dir : PyVal)
    (p0 : Option Params) (resp : HttpResponse) (ps : Params)
    (h : queryParams q l t dir p0 = Except.ok ps) :
    (c.queryRun q l t dir p0 resp).2.2 =
      (if c.ignore_http_errors = false ∧ 400 ≤ resp.status ∧ resp.status < 600 then
        Except.error (PyError.httpError resp.status)
      else
        match resp.json? with
        | some v => Except.ok v
        | Option.none => Except.error PyError.jsonDecodeError) := by
  simp [LokiConnect.queryRun, h]

/-- Counterexample to claim C2 as stated: with `ignore_http_errors = false`
and a 304 response (non-2xx), `query()` raises nothing and returns the
parsed body. -/
theorem query_304_returns_body_without_error :
    sampleClient.ignore_http_errors = false ∧
    (sampleClient.queryRun (PyVal.str "q") (PyVal.int 10) PyVal.none
        (PyVal.str "backward") Option.none
        { status := 304, json? := some (PyVal.str "body") }).2.2
      = Except.ok (PyVal.str "body") :=
  ⟨rfl, rfl⟩

/-- Witness instantiating `query_http_error_range`: a 500 response with the
flag off raises `HTTPStatusError(500)`. -/
theorem query_http_error_range_witness :
    (sampleClient.queryRun (PyVal.str "q") (PyVal.int 10) PyVal.none
        (PyVal.str "backward") Option.none
        { status := 500, json? := some PyVal.none }).2.2
      = Except.error (PyError.httpError 500) := by
  have h := query_http_error_range sampleClient (PyVal.str "q") (PyVal.int 10)
    PyVal.none (PyVal.str "backward") Option.none
    { status := 500, json? := some PyVal.none }
    [("query", PyVal.str "q"), ("limit", PyVal.int 10),
      ("direction", PyVal.str "backward")] rfl
  simpa [sampleClient] using h

/-- Claim C3: a `query()` call whose query argument is falsy or not a
string fails with `InvalidArgument` (the code's `ValueError`/`TypeError`)
and issues no outbound request. -/
theorem query_invalid_query_rejected (c : LokiConnect) (q l t dir : PyVal)
    (p0 : Option Params) (resp : HttpResponse)
    (h : q.truthy = false ∨ q.isStr = false) :
    (c.queryRun q l t dir p0 resp).2.1 = Option.none ∧
    ((c.queryRun q l t dir p0 resp).2.2
        = Except.error (PyError.valueError "query empty") ∨
     ∃ m, (c.queryRun q l t dir p0 resp).2.2 = Except.error (PyError.typeError m)) := by
  rcases h with h | h
  · simp [LokiConnect.queryRun, queryParams, queryBuild, h]
  · by_cases hq : q.truthy = true
    · simp [LokiConnect.queryRun, queryParams, queryBuild, hq, h]
    · rw [Bool.not_eq_true] at hq
      simp [LokiConnect.queryRun, queryParams, queryBuild, hq]

/-- Witness instantiating `query_invalid_query_rejected` at `query=None`. -/
theorem query_invalid_query_rejected_witness :
    (sampleClient.queryRun PyVal.none (PyVal.int 10) PyVal.none
        (PyVal.str "backward") Option.none
        { status := 200, json? := some PyVal.none }).2.1 = Option.none ∧
    ((sampleClient.queryRun PyVal.none (PyVal.int 10) PyVal.none
        (PyVal.str "backward") Option.none
        { status := 200, json? := some PyVal.none }).2.2
        = Except.error (PyError.valueError "query empty") ∨
     ∃ m, (sampleClient.queryRun PyVal.none (PyVal.int 10) PyVal.none
        (PyVal.str "backward") Option.none
        { status := 200, json? := some PyVal.none }).2.2
        = Except.error (PyError.typeError m)) :=
  query_invalid_query_rejected sampleClient PyVal.none (PyVal.int 10) PyVal.none
    (PyVal.str "backward") Option.none { status := 200, json? := some PyVal.none }
    (Or.inl rfl)

/-- Claim C4: a `query()` call with a valid (truthy string) query but a
direction outside {"backward", "forward"} fails with `InvalidArgument`
(the code's `ValueError`) and issues no outbound request. -/
theorem query_invalid_direction_rejected (c : LokiConnect) (q l t dir : PyVal)
    (p0 : Option Params) (resp : HttpResponse)
    (hq : q.truthy = true) (hs : q.isStr = true)
    (hd : ¬ (dir = PyVal.str "backward" ∨ dir = PyVal.str "forward")) :
    (c.queryRun q l t dir p0 resp).2.1 = Option.none ∧
    (c.queryRun q l t dir p0 resp).2.2
      = Except.error (PyError.valueError "Invalid direction Value") := by
  simp [LokiConnect.queryRun, queryParams, queryBuild, hq, hs, hd]

/-- Witness instantiating `query_invalid_direction_rejected` at
`direction="sideways"`. -/
theorem query_invalid_direction_rejected_witness :
    (sampleClient.queryRun (PyVal.str "q") (PyVal.int 10) PyVal.none
        (PyVal.str "sideways") Option.none
        { status := 200, json? := some PyVal.none }).2.1 = Option.none ∧
    (sampleClient.queryRun (PyVal.str "q") (PyVal.int 10) PyVal.none
        (PyVal.str "sideways") Option.none
        { status := 200, json? := some PyVal.none }).2.2
      = Except.error (PyError.valueError "Invalid direction Value") :=
  query_invalid_direction_rejected sampleClient (PyVal.str "q") (PyVal.int 10)
    PyVal.none (PyVal.str "sideways") Option.none
    { status := 200, json? := some PyVal.none } rfl rfl (by decide)

/-- Claim C5: `ready()` returns true iff the response status is below 400
(for any real HTTP status, i.e. below 600), returns false otherwise, and
never raises — the embedding of `ready` is total and does not consult
`ignore_http_errors`, which the universally quantified client reflects. -/
theorem ready_ok_iff_status_lt_400 (c : LokiConnect) (p0 : Option Params)
    (resp : HttpResponse) (h : resp.status < 600) :
    ((c.readyRun p0 resp).2.2 = true ↔ resp.status < 400) := by
  simp [LokiConnect.readyRun, HttpResponse.ok]
  omega

/-- Witness instantiating `ready_ok_iff_status_lt_400` at a 503 response
(so `ready` returns false there). -/
theorem ready_ok_iff_status_lt_400_witness :
    ((sampleClient.readyRun Option.none
        { status := 503, json? := Option.none }).2.2 = true ↔ (503 : Nat) < 400) :=
  ready_ok_iff_status_lt_400 sampleClient Option.none
    { status := 503, json? := Option.none } (by decide)

/-- Claim C6, amended (the original is refuted by
`query_mutates_caller_params`): `ready()` leaves a caller-supplied params
map unchanged.  `query()` given an absent or empty map works on a fresh
empty dict (`params = params or {}`), so nothing leaks into the caller's
empty map or across calls; but given a non-empty map `query()` mutates the
caller's map in place — after a call whose validation succeeds, the
caller's map IS the parameter set that was sent (named-argument keys
included). -/
theorem params_aliasing_spec (q l t dir : PyVal) (d ps : Params) :
    readyCallerAfter d = d
    ∧ (d.isEmpty = true → queryCallerAfter q l t dir d = d)
    ∧ (d.isEmpty = false → queryParams q l t dir (some d) = Except.ok ps →
        queryCallerAfter q l t dir d = ps) := by
  refine ⟨rfl, ?_, ?_⟩
  · intro h
    simp [queryCallerAfter, h]
  · intro hne hok
    simp [queryCallerAfter, hne]
    rw [queryParams, paramsOrEmpty_some] at hok
    cases hb : queryBuild q l t dir d with
    | mk dd oe =>
      rw [hb] at hok
      cases oe with
      | none => simp at hok; rw [hok]
      | some e => simp at hok

/-- Counterexample to claim C6 as stated: after
`query("x", params={"a": "b"})` the caller's map has gained the keys
`query`, `limit` and `direction` — it is not unchanged. -/
theorem query_mutates_caller_params :
    queryCallerAfter (PyVal.str "x") (PyVal.int 10) PyVal.none
        (PyVal.str "backward") [("a", PyVal.str "b")]
      = [("a", PyVal.str "b"), ("query", PyVal.str "x"),
         ("limit", PyVal.int 10), ("direction", PyVal.str "backward")] ∧
    ([("a", PyVal.str "b"), ("query", PyVal.str "x"),
      ("limit", PyVal.int 10), ("direction", PyVal.str "backward")] : Params)
      ≠ [("a", PyVal.str "b")] :=
  ⟨rfl, by decide⟩

/-- Witness instantiating `params_aliasing_spec` on a non-empty caller map. -/
theorem params_aliasing_spec_witness :
    queryCallerAfter (PyVal.str "x") (PyVal.int 10) PyVal.none
        (PyVal.str "backward") [("a", PyVal.str "b")]
      = [("a", PyVal.str "b"), ("query", PyVal.str "x"),
         ("limit", PyVal.int 10), ("direction", PyVal.str "backward")] :=
  (params_aliasing_spec (PyVal.str "x") (PyVal.int 10) PyVal.none
      (PyVal.str "backward") [("a", PyVal.str "b")]
      [("a", PyVal.str "b"), ("query", PyVal.str "x"),
       ("limit", PyVal.int 10), ("direction", PyVal.str "backward")]).2.2 rfl rfl

/-- Claim C7: a client constructed without a retry policy gets the default
one — total attempts 3, backoff factor 1, retry exactly on
{408, 429, 500, 502, 503, 504}. -/
theorem default_retry_policy (url : String) (hdrs : Option Params) (d i : Bool)
    (c : LokiConnect)
    (hc : LokiConnect.init (some url) hdrs d Option.none i = Except.ok c) :
    c.retry.total = 3 ∧ c.retry.backoff_factor = 1 ∧
    c.retry.status_forcelist = [408, 429, 500, 502, 503, 504] := by
  simp only [LokiConnect.init] at hc
  cases hnet : urlparseNetloc url with
  | error e => rw [hnet] at hc; exact absurd hc (by simp)
  | ok host =>
    rw [hnet] at hc
    simp only [Except.ok.injEq] at hc
    subst hc
    exact ⟨rfl, rfl, rfl⟩

/-- Witness instantiating `default_retry_policy` at the default URL. -/
theorem default_retry_policy_witness :
    sampleClient.retry.total = 3 ∧ sampleClient.retry.backoff_factor = 1 ∧
    sampleClient.retry.status_forcelist = [408, 429, 500, 502, 503, 504] :=
  default_retry_policy "http://127.0.0.1:3100" Option.none false false
    sampleClient rfl

/-- Claim C9: the client configuration is immutable after construction —
any sequence of `ready()`/`query()` calls, succeeding or failing, leaves
every field of the client unchanged (each call's post-state equals its
pre-state). -/
theorem config_immutable_under_calls (c : LokiConnect) (calls : List Call) :
    c.runCalls calls = c := by
  induction calls generalizing c with
  | nil => rfl
  | cons k rest ih =>
    show LokiConnect.runCalls (c.runCall k) rest = c
    rw [runCall_id, ih]

/-- Claim C10: for a falsy query argument of any type the emptiness check
fires first — `query()` fails with `ValueError("query empty")` — and the
wrong-type `TypeError` is raised only for truthy non-string queries. -/
theorem empty_check_precedes_type_check (c : LokiConnect) (q l t dir : PyVal)
    (p0 : Option Params) (resp : HttpResponse) :
    (q.truthy = false →
      (c.queryRun q l t dir p0 resp).2.2
        = Except.error (PyError.valueError "query empty")) ∧
    (∀ m, (c.queryRun q l t dir p0 resp).2.2 = Except.error (PyError.typeError m) →
      q.truthy = true ∧ q.isStr = false) := by
  constructor
  · intro h
    simp [LokiConnect.queryRun, queryParams, queryBuild, h]
  · intro m hm
    by_cases hq : q.truthy = true
    · by_cases hs : q.isStr = true
      · exfalso
        by_cases hdir : dir = PyVal.str "backward" ∨ dir = PyVal.str "forward"
        · simp [LokiConnect.queryRun, queryParams, queryBuild, hq, hs, hdir] at hm
          by_cases hc2 : c.ignore_http_errors = false ∧ 400 ≤ resp.status ∧ resp.status < 600
          · rw [if_pos hc2] at hm
            simp at hm
          · rw [if_neg hc2] at hm
            cases hj : resp.json? with
            | none => rw [hj] at hm; simp at hm
            | some v => rw [hj] at hm; simp at hm
        · simp [LokiConnect.queryRun, queryParams, queryBuild, hq, hs, hdir] at hm
      · exact ⟨hq, Bool.not_eq_true _ ▸ hs⟩
    · rw [Bool.not_eq_true] at hq
      exfalso
      simp [LokiConnect.queryRun, queryParams, queryBuild, hq] at hm

/-- Witness instantiating `empty_check_precedes_type_check` at the falsy
non-string query `0`: the error is the empty-query `ValueError`, not the
`TypeError`. -/
theorem empty_check_precedes_type_check_witness :
    (sampleClient.queryRun (PyVal.int 0) (PyVal.int 10) PyVal.none
        (PyVal.str "backward") Option.none
        { status := 200, json? := some PyVal.none }).2.2
      = Except.error (PyError.valueError "query empty") :=
  (empty_check_precedes_type_check sampleClient (PyVal.int 0) (PyVal.int 10)
    PyVal.none (PyVal.str "backward") Option.none
    { status := 200, json? := some PyVal.none }).1 rfl
